import Mathlib

set_option maxHeartbeats 2000000
set_option maxRecDepth 8000

/- Verification development for the skill-augmented chess rule engine of
   src/app.py.  The baseline chess engine (python-chess) is an external
   collaborator of the specified system; its operations used by the engine
   (piece queries, attack detection, standard legal-move membership, push/pop,
   capture tests) are modelled here following their documented semantics.
   The skill-engine functions themselves (is_check, is_move_legal,
   is_movable_under_subjects, handle_revive_skill, get_squares_between, ...)
   are translated statement by statement from src/app.py. -/

inductive PieceType where
  | pawn
  | knight
  | bishop
  | rook
  | queen
  | king
  deriving DecidableEq, Repr

structure Piece where
  piece_type : PieceType
  color : Bool
  deriving DecidableEq, Repr

structure Castling where
  wk : Bool
  wq : Bool
  bk : Bool
  bq : Bool
  deriving DecidableEq, Repr

/-- Model of the mutable python-chess Board state (squares 0..63, a1 = 0,
    indexed rank * 8 + file; turn true = WHITE as in python-chess). -/
structure Position where
  board : List (Option Piece)
  turn : Bool
  ep_square : Option Nat
  castling : Castling
  deriving DecidableEq, Repr

structure Move where
  from_square : Nat
  to_square : Nat
  promotion : Option PieceType
  deriving DecidableEq, Repr

inductive PyErr where
  | valueError
  | indexError
  | keyError
  deriving DecidableEq, Repr

deriving instance DecidableEq for Except

def square_file (sq : Nat) : Nat := sq % 8

def square_rank (sq : Nat) : Nat := sq / 8

def piece_at (pos : Position) (sq : Nat) : Option Piece :=
  pos.board.getD sq none

def set_piece_at (pos : Position) (sq : Nat) (p : Option Piece) : Position :=
  { pos with board := pos.board.set sq p }

/-- board.pieces(piece_type, color): square set, iterated in ascending order
    (python-chess SquareSet iterates from the least significant bit). -/
def Position.pieces (pos : Position) (pt : PieceType) (color : Bool) : List Nat :=
  (List.range 64).filter fun sq => piece_at pos sq == some ⟨pt, color⟩

/-- board.king(color): python-chess returns the most significant matching
    square, or None when the side has no king. -/
def Position.king (pos : Position) (color : Bool) : Option Nat :=
  ((List.range 64).filter fun sq =>
    piece_at pos sq == some ⟨PieceType.king, color⟩).getLast?

/-- chess.between(a, b): squares strictly between two squares on a shared
    rank, file or diagonal; empty when the squares are not aligned. -/
def betweenSqs (a b : Nat) : List Nat :=
  let df : Int := (square_file b : Int) - square_file a
  let dr : Int := (square_rank b : Int) - square_rank a
  if (df = 0 ∧ dr ≠ 0) ∨ (dr = 0 ∧ df ≠ 0) ∨ (df.natAbs = dr.natAbs ∧ df ≠ 0) then
    let steps := max df.natAbs dr.natAbs
    let fs : Int := if 0 < df then 1 else if df < 0 then -1 else 0
    let rs : Int := if 0 < dr then 1 else if dr < 0 then -1 else 0
    (List.range (steps - 1)).map fun i =>
      let k : Int := (i : Int) + 1
      (((square_rank a : Int) + k * rs) * 8 + ((square_file a : Int) + k * fs)).toNat
  else []

def pathEmptyBetween (pos : Position) (a b : Nat) : Bool :=
  (betweenSqs a b).all fun s => piece_at pos s == none

/-- Whether the piece standing on from_sq attacks to_sq under standard rules
    (python-chess attacks/attackers semantics, sliding pieces blocked by any
    occupied square in between). -/
def pieceAttacks (pos : Position) (from_sq to_sq : Nat) : Bool :=
  match piece_at pos from_sq with
  | none => false
  | some p =>
    let df : Int := (square_file to_sq : Int) - square_file from_sq
    let dr : Int := (square_rank to_sq : Int) - square_rank from_sq
    match p.piece_type with
    | PieceType.pawn => df.natAbs == 1 && dr == (if p.color then 1 else -1)
    | PieceType.knight =>
        (df.natAbs == 1 && dr.natAbs == 2) || (df.natAbs == 2 && dr.natAbs == 1)
    | PieceType.king =>
        (df != 0 || dr != 0) && decide (df.natAbs ≤ 1) && decide (dr.natAbs ≤ 1)
    | PieceType.bishop =>
        df.natAbs == dr.natAbs && df != 0 && pathEmptyBetween pos from_sq to_sq
    | PieceType.rook =>
        ((df == 0 && dr != 0) || (dr == 0 && df != 0)) && pathEmptyBetween pos from_sq to_sq
    | PieceType.queen =>
        ((df == 0 && dr != 0) || (dr == 0 && df != 0) || (df.natAbs == dr.natAbs && df != 0))
          && pathEmptyBetween pos from_sq to_sq

/-- board.attackers(color, target), ascending square order. -/
def Position.attackers (pos : Position) (color : Bool) (target : Nat) : List Nat :=
  (List.range 64).filter fun sq =>
    ((piece_at pos sq).any fun p => p.color == color) && pieceAttacks pos sq target

def Position.is_attacked_by (pos : Position) (color : Bool) (target : Nat) : Bool :=
  !(Position.attackers pos color target).isEmpty

/-- board.is_check(): the side to move has its king attacked. -/
def Position.std_is_check (pos : Position) : Bool :=
  match Position.king pos pos.turn with
  | none => false
  | some k => Position.is_attacked_by pos (!pos.turn) k

def backRank (color : Bool) : Nat := if color then 0 else 7

/-- python-chess castling-rights update: touching a rook home square clears
    that right (rights are stored as rook squares). -/
def clearTouched (c : Castling) (sq : Nat) : Castling :=
  if sq == 0 then { c with wq := false }
  else if sq == 7 then { c with wk := false }
  else if sq == 56 then { c with bq := false }
  else if sq == 63 then { c with bk := false }
  else c

/-- board.push(move) applied to the position component: moves the piece,
    performing captures, en-passant removal, promotion, castling rook
    transfer, en-passant square bookkeeping, castling-right updates and the
    turn flip, exactly as python-chess Board.push does. -/
def applyMove (pos : Position) (m : Move) : Position :=
  if m.from_square == 0 && m.to_square == 0 && m.promotion == none then
    { pos with turn := !pos.turn, ep_square := none }
  else
    match piece_at pos m.from_square with
    | none => { pos with turn := !pos.turn, ep_square := none }
    | some pc =>
      let oldEp := pos.ep_square
      let rights0 := clearTouched (clearTouched pos.castling m.from_square) m.to_square
      let rights :=
        if pc.piece_type == PieceType.king then
          if pos.turn then { rights0 with wk := false, wq := false }
          else { rights0 with bk := false, bq := false }
        else rights0
      let isCastle := pc.piece_type == PieceType.king &&
        (decide (1 < ((square_file m.to_square : Int) - square_file m.from_square).natAbs) ||
         piece_at pos m.to_square == some ⟨PieceType.rook, pos.turn⟩)
      if isCastle then
        let kingside : Bool := decide (square_file m.from_square < square_file m.to_square)
        let rk := backRank pos.turn
        let rookFrom :=
          if piece_at pos m.to_square == some ⟨PieceType.rook, pos.turn⟩ then m.to_square
          else if kingside then rk * 8 + 7 else rk * 8
        let b1 := set_piece_at pos m.from_square none
        let b2 := set_piece_at b1 rookFrom none
        let b3 := set_piece_at b2 (rk * 8 + (if kingside then 6 else 2))
          (some ⟨PieceType.king, pos.turn⟩)
        let b4 := set_piece_at b3 (rk * 8 + (if kingside then 5 else 3))
          (some ⟨PieceType.rook, pos.turn⟩)
        { b4 with turn := !pos.turn, ep_square := none, castling := rights }
      else
        let isEp := pc.piece_type == PieceType.pawn && oldEp == some m.to_square &&
          (((m.to_square : Int) - m.from_square).natAbs == 7 ||
           ((m.to_square : Int) - m.from_square).natAbs == 9) &&
          piece_at pos m.to_square == none
        let b1 := set_piece_at pos m.from_square none
        let b2 :=
          if isEp then
            set_piece_at b1 (((m.to_square : Int) + (if pos.turn then -8 else 8)).toNat) none
          else b1
        let placed : Piece :=
          match m.promotion with
          | some pt => ⟨pt, pc.color⟩
          | none => pc
        let b3 := set_piece_at b2 m.to_square (some placed)
        let newEp : Option Nat :=
          if pc.piece_type == PieceType.pawn && m.to_square == m.from_square + 16 &&
              square_rank m.from_square == 1 then some (m.from_square + 8)
          else if pc.piece_type == PieceType.pawn && m.to_square + 16 == m.from_square &&
              square_rank m.from_square == 6 then some (m.from_square - 8)
          else none
        { b3 with turn := !pos.turn, ep_square := newEp, castling := rights }

def pawnMoveOk (pos : Position) (m : Move) : Bool :=
  let dir : Int := if pos.turn then 8 else -8
  let toI : Int := m.to_square
  let fromI : Int := m.from_square
  let lastRank : Nat := if pos.turn then 7 else 0
  let promoOk :=
    if square_rank m.to_square == lastRank then
      match m.promotion with
      | some pt =>
          pt == PieceType.knight || pt == PieceType.bishop ||
          pt == PieceType.rook || pt == PieceType.queen
      | none => false
    else m.promotion == none
  let fileDiff := ((square_file m.to_square : Int) - square_file m.from_square).natAbs
  let isCap := fileDiff == 1 && (toI - fromI == dir + 1 || toI - fromI == dir - 1) &&
    (((piece_at pos m.to_square).any fun p => p.color == !pos.turn) ||
     (pos.ep_square == some m.to_square && piece_at pos m.to_square == none))
  let single := fileDiff == 0 && toI - fromI == dir && piece_at pos m.to_square == none
  let dbl := fileDiff == 0 && toI - fromI == 2 * dir &&
    square_rank m.from_square == (if pos.turn then 1 else 6) &&
    piece_at pos (fromI + dir).toNat == none && piece_at pos m.to_square == none
  promoOk && (isCap || single || dbl)

/-- Standard castling legality as generated by python-chess (rights present,
    rook on its home square, path empty, king not castling out of, through or
    into an attacked square). -/
def castlingOk (pos : Position) (m : Move) : Bool :=
  let home := if pos.turn then 4 else 60
  let rk := backRank pos.turn
  m.promotion == none && m.from_square == home &&
  piece_at pos home == some ⟨PieceType.king, pos.turn⟩ &&
  ((m.to_square == home + 2 &&
    (if pos.turn then pos.castling.wk else pos.castling.bk) &&
    piece_at pos (rk * 8 + 7) == some ⟨PieceType.rook, pos.turn⟩ &&
    piece_at pos (rk * 8 + 5) == none && piece_at pos (rk * 8 + 6) == none &&
    !(Position.is_attacked_by pos (!pos.turn) home) &&
    !(Position.is_attacked_by pos (!pos.turn) (rk * 8 + 5)) &&
    !(Position.is_attacked_by pos (!pos.turn) (rk * 8 + 6)))
   ||
   (m.to_square + 2 == home &&
    (if pos.turn then pos.castling.wq else pos.castling.bq) &&
    piece_at pos (rk * 8) == some ⟨PieceType.rook, pos.turn⟩ &&
    piece_at pos (rk * 8 + 1) == none && piece_at pos (rk * 8 + 2) == none &&
    piece_at pos (rk * 8 + 3) == none &&
    !(Position.is_attacked_by pos (!pos.turn) home) &&
    !(Position.is_attacked_by pos (!pos.turn) (rk * 8 + 3)) &&
    !(Position.is_attacked_by pos (!pos.turn) (rk * 8 + 2))))

/-- board.is_pseudo_legal(move) for the standard Board. -/
def isPseudoLegal (pos : Position) (m : Move) : Bool :=
  match piece_at pos m.from_square with
  | none => false
  | some p =>
    if !(p.color == pos.turn) then false
    else if m.promotion.isSome &&
        (!(p.piece_type == PieceType.pawn) ||
         !(square_rank m.to_square == (if pos.turn then 7 else 0))) then false
    else if p.piece_type == PieceType.king && castlingOk pos m then true
    else if (piece_at pos m.to_square).any (fun t => t.color == pos.turn) then false
    else if p.piece_type == PieceType.pawn then pawnMoveOk pos m
    else pieceAttacks pos m.from_square m.to_square

/-- board.is_into_check(move): after playing the move the mover's own king
    would be attacked. -/
def isIntoCheck (pos : Position) (m : Move) : Bool :=
  match Position.king pos pos.turn with
  | none => false
  | some _ =>
    let nxt := applyMove pos m
    match Position.king nxt pos.turn with
    | none => false
    | some k => Position.is_attacked_by nxt (!pos.turn) k

/-- move in board.legal_moves, i.e. python-chess Board.is_legal(move). -/
def isStandardLegal (pos : Position) (m : Move) : Bool :=
  isPseudoLegal pos m && !(isIntoCheck pos m)

/-- board.is_en_passant(move). -/
def Position.is_en_passant (pos : Position) (m : Move) : Bool :=
  pos.ep_square == some m.to_square &&
  ((piece_at pos m.from_square).any fun p => p.piece_type == PieceType.pawn) &&
  (((m.to_square : Int) - m.from_square).natAbs == 7 ||
   ((m.to_square : Int) - m.from_square).natAbs == 9) &&
  piece_at pos m.to_square == none

/-- board.is_capture(move): enemy piece on the destination, or en passant. -/
def Position.is_capture (pos : Position) (m : Move) : Bool :=
  ((piece_at pos m.to_square).any fun p => p.color == !pos.turn) ||
  Position.is_en_passant pos m

/-- board.gives_check(move): push the move, test check, pop (net effect is
    pure, so it is modelled as a function of the position). -/
def gives_check (pos : Position) (m : Move) : Bool :=
  Position.std_is_check (applyMove pos m)

/-- The Board object with its move stack: push records the prior state,
    pop restores it (IndexError on an empty stack). -/
structure Board where
  pos : Position
  stack : List Position
  deriving DecidableEq, Repr

def Board.push (b : Board) (m : Move) : Board :=
  ⟨applyMove b.pos m, b.pos :: b.stack⟩

def Board.popMove (b : Board) : Except PyErr Board :=
  match b.stack with
  | [] => Except.error PyErr.indexError
  | p :: rest => Except.ok ⟨p, rest⟩

/- ===== Translations of the skill engine in src/app.py ===== -/

/-- is_queen_like_move(from_sq, to_sq) of src/app.py. -/
def is_queen_like_move (from_sq to_sq : Nat) : Bool :=
  let file1 := square_file from_sq
  let rank1 := square_rank from_sq
  let file2 := square_file to_sq
  let rank2 := square_rank to_sq
  file1 == file2 || rank1 == rank2 ||
    ((file1 : Int) - file2).natAbs == ((rank1 : Int) - rank2).natAbs

/-- Round n / d (with d > 0) to the nearest integer, ties to even: the
    rounding used both by IEEE binary64 operations and by the Python round
    builtin. -/
def roundHalfEvenInt (n d : Int) : Int :=
  let q := Int.fdiv n d
  let r := n - q * d
  if 2 * r < d then q
  else if d < 2 * r then q + 1
  else if q % 2 == 0 then q else q + 1

/-- The binary exponent e with 2 ^ e ≤ na / d < 2 ^ (e + 1), searched over
    [-3, 4].  Every nonzero value arising in the get_squares_between float
    arithmetic lies in this range: the steps are quotients d / s with
    1 ≤ abs d ≤ s ≤ 7 (magnitude in [1/7, 1]), and the running coordinate
    sums are within one unit in the last place of exact interpolated board
    coordinates, whose nonzero values are multiples of 1/s inside [0, 7],
    so all magnitudes fall in [1/7 - 2^-40, 8]. -/
def floatExpSearch (na d : Int) : Int :=
  if d * 16 ≤ na then 4
  else if d * 8 ≤ na then 3
  else if d * 4 ≤ na then 2
  else if d * 2 ≤ na then 1
  else if d ≤ na then 0
  else if d ≤ na * 2 then -1
  else if d ≤ na * 4 then -2
  else -3

/-- IEEE binary64 rounding of the exact rational n / d (with d > 0): the
    nearest double (53-bit significand, ties to even), returned scaled by
    2 ^ 55.  Every double with magnitude in [2^-3, 2^5) or equal to zero is
    an integer multiple of 2^-55, so this scaled-integer representation is
    exact on the domain described at floatExpSearch.  Python float division
    and addition are correctly rounded, so each float operation of the
    source equals this function applied to the exact rational result. -/
def flScaled (n d : Int) : Int :=
  if n == 0 then 0
  else
    let na := |n|
    let e := floatExpSearch na d
    let m := roundHalfEvenInt (na * 2 ^ (52 - e).toNat) d
    let r := m * 2 ^ (e + 3).toNat
    if n < 0 then -r else r

/-- The scale factor of the float representation: a Python float of value v
    appearing in get_squares_between is modelled by the integer v * 2 ^ 55. -/
def floatScale : Int := 2 ^ 55

/-- The accumulation loop of get_squares_between: current_file and
    current_rank hold the scaled exact values of the source's Python floats,
    each += being a correctly rounded binary64 addition, and each emitted
    square is chess.square(round(current_file), round(current_rank)). -/
def gsb_loop : Nat → Int → Int → Int → Int → List Nat
  | 0, _, _, _, _ => []
  | Nat.succ k, current_file, current_rank, file_step, rank_step =>
    let cf := flScaled (current_file + file_step) floatScale
    let cr := flScaled (current_rank + rank_step) floatScale
    (roundHalfEvenInt cr floatScale * 8 + roundHalfEvenInt cf floatScale).toNat ::
      gsb_loop k cf cr file_step rank_step

/-- get_squares_between(from_sq, to_sq) of src/app.py: linear interpolation
    by fractional float steps with rounding, for any pair of squares (aligned
    or not).  The float arithmetic of the source (the two step divisions and
    the running additions) is modelled bit-exactly by the scaled binary64
    arithmetic above. -/
def get_squares_between (from_sq to_sq : Nat) : List Nat :=
  let file1 : Int := square_file from_sq
  let rank1 : Int := square_rank from_sq
  let file2 : Int := square_file to_sq
  let rank2 : Int := square_rank to_sq
  let file_diff := file2 - file1
  let rank_diff := rank2 - rank1
  let steps := max file_diff.natAbs rank_diff.natAbs
  if steps ≤ 1 then []
  else
    let file_step := flScaled file_diff (steps : Int)
    let rank_step := flScaled rank_diff (steps : Int)
    gsb_loop (steps - 1) (file1 * floatScale) (rank1 * floatScale) file_step rank_step

/-- game['revive'] flags, absent until first written (the source uses
    game.get('revive', {}).get(color_key, False)). -/
structure ReviveFlags where
  white : Bool
  black : Bool
  deriving DecidableEq, Repr

/-- game['data'] entries used by the bonus-move machinery; a missing key is
    a KeyError in Python, modelled by none. -/
structure GameData where
  rampage : Option Nat
  blitzkrieg : Option Nat
  deriving DecidableEq, Repr

structure Game where
  data : GameData
  revive : Option ReviveFlags
  deriving DecidableEq, Repr

/-- get_square_color of handle_revive_skill: note the source labels a square
    LIGHT when file + rank is even (a1 is reported as LIGHT). -/
def get_square_color (sq : Nat) : Except PyErr String :=
  if 63 < sq then Except.error PyErr.valueError
  else Except.ok (if (square_file sq + square_rank sq) % 2 == 0 then "LIGHT" else "DARK")

/-- The ORIGINAL_SQUARES table of handle_revive_skill for knights and rooks. -/
def original_squares (color : Bool) (pt : PieceType) : List Nat :=
  if color then
    if pt == PieceType.rook then [0, 7] else [1, 6]
  else
    if pt == PieceType.rook then [56, 63] else [57, 62]

/-- The ORIGINAL_SQUARES BISHOP_SQUARES table: white LIGHT -> F1, DARK -> C1;
    black LIGHT -> C8, DARK -> F8 (keys as produced by get_square_color). -/
def bishop_home (color : Bool) (square_color : String) : Nat :=
  if color then
    if square_color == "LIGHT" then 5 else 2
  else
    if square_color == "LIGHT" then 58 else 61

/-- handle_revive_skill(board, captured_piece, captured_on_square, game) of
    src/app.py, returning the updated board and game. -/
def handle_revive_skill (pos : Position) (captured_piece : Option Piece)
    (captured_on_square : Nat) (game : Game) : Except PyErr (Position × Game) :=
  match captured_piece with
  | none => Except.ok (pos, game)
  | some cp =>
    let reviving_player_color := cp.color
    let already :=
      match game.revive with
      | none => false
      | some f => if reviving_player_color then f.white else f.black
    if already then Except.ok (pos, game)
    else if !(cp.piece_type == PieceType.knight || cp.piece_type == PieceType.bishop ||
        cp.piece_type == PieceType.rook) then Except.ok (pos, game)
    else do
      let revival_squares ←
        if cp.piece_type == PieceType.knight || cp.piece_type == PieceType.rook then
          Except.ok (original_squares reviving_player_color cp.piece_type)
        else do
          let square_color ← get_square_color captured_on_square
          Except.ok [bishop_home reviving_player_color square_color]
      match revival_squares.find? (fun s => piece_at pos s == none) with
      | some square =>
        let pos1 := set_piece_at pos square (some cp)
        let f := game.revive.getD ⟨false, false⟩
        let f1 := if reviving_player_color then { f with white := true }
                  else { f with black := true }
        Except.ok (pos1, { game with revive := some f1 })
      | none => Except.ok (pos, game)

/-- Inner helper of is_check: for every enemy bishop, substitute a phantom
    queen and test whether it attacks the king (restoration is exact, so the
    iterations are independent). -/
def is_king_attacked_by_theocracy (pos : Position) : Bool :=
  match Position.king pos pos.turn with
  | none => false
  | some king_square =>
    let opponent_color := !pos.turn
    let enemy_bishops := Position.pieces pos PieceType.bishop opponent_color
    enemy_bishops.any fun bishop_square =>
      Position.is_attacked_by
        (set_piece_at pos bishop_square (some ⟨PieceType.queen, opponent_color⟩))
        opponent_color king_square

/-- Inner helper of is_check: enemy rooks with a path to the king that is
    empty or blocked only by the rook's own pieces; the source additionally
    requires the rook to be a member of the standard attacker set of the king
    square. -/
def is_king_attacked_by_blitzkrieg (pos : Position) : Bool :=
  match Position.king pos pos.turn with
  | none => false
  | some king_square =>
    let opponent_color := !pos.turn
    let enemy_rooks := Position.pieces pos PieceType.rook opponent_color
    enemy_rooks.any fun rook_square =>
      let squares_between := betweenSqs rook_square king_square
      let is_blocked := squares_between.any fun sq =>
        match piece_at pos sq with
        | some piece => piece.color != opponent_color
        | none => false
      !is_blocked && (Position.attackers pos opponent_color king_square).contains rook_square

/-- is_protected_by_theocracy(board, turn_color) of src/app.py. -/
def is_protected_by_theocracy (pos : Position) (turn_color : Bool) : Bool :=
  decide (0 < (Position.pieces pos PieceType.bishop turn_color).length)

/-- is_check(board, your_skill, opponent_skill) of src/app.py. -/
def is_check (pos : Position) (your_skill opponent_skill : String) : Bool :=
  let standard_check := Position.std_is_check pos
  let theocracy_check :=
    if opponent_skill == "theocracy" then is_king_attacked_by_theocracy pos else false
  let blitzkrieg_check :=
    if opponent_skill == "blitzkrieg" then is_king_attacked_by_blitzkrieg pos else false
  let is_in_check_overall := standard_check || theocracy_check || blitzkrieg_check
  let immunity :=
    if your_skill == "theocracy" then is_protected_by_theocracy pos pos.turn else false
  is_in_check_overall && !immunity

/-- is_path_clear(board, from_sq, to_sq) of src/app.py. -/
def is_path_clear (pos : Position) (from_sq to_sq : Nat) : Bool :=
  (get_squares_between from_sq to_sq).all fun sq => piece_at pos sq == none

/-- is_path_clear_blitzkrieg(board, from_sq, to_sq, turn_color) of src/app.py. -/
def is_path_clear_blitzkrieg (pos : Position) (from_sq to_sq : Nat) (turn_color : Bool) : Bool :=
  (get_squares_between from_sq to_sq).all fun sq =>
    match piece_at pos sq with
    | some p => p.color == turn_color
    | none => true

/-- is_legal_second_move_no_capture_and_check(board, move) of src/app.py. -/
def is_legal_second_move_no_capture_and_check (pos : Position) (m : Move) : Bool :=
  if Position.is_capture pos m then false
  else if gives_check pos m then false
  else true

/-- chess.square_name(sq). -/
def square_name (sq : Nat) : String :=
  String.mk [Char.ofNat ('a'.toNat + square_file sq), Char.ofNat ('1'.toNat + square_rank sq)]

def SQUARE_NAMES : List String := (List.range 64).map square_name

/-- A Python value passed where chess.parse_square expects a square name:
    the source passes both strings and raw integer square indices. -/
inductive PyVal where
  | int : Nat → PyVal
  | str : String → PyVal
  deriving DecidableEq, Repr

def list_index (s : String) : List String → Option Nat
  | [] => none
  | x :: xs => if x == s then some 0 else (list_index s xs).map (· + 1)

/-- chess.parse_square: SQUARE_NAMES.index(name); an integer argument is never
    an element of the list of names, so it raises ValueError. -/
def parse_square : PyVal → Except PyErr Nat
  | PyVal.str s =>
    match list_index s SQUARE_NAMES with
    | some i => Except.ok i
    | none => Except.error PyErr.valueError
  | PyVal.int _ => Except.error PyErr.valueError

/-- check_in_front_of of is_movable_under_subjects: a ValueError from parsing
    is caught and yields False. -/
def check_in_front_of (pawn_sq piece_sq : PyVal) (pawn_color : Bool) : Bool :=
  match parse_square pawn_sq, parse_square piece_sq with
  | Except.ok pawn_square_index, Except.ok piece_square_index =>
    let pawn_file := square_file pawn_square_index
    let piece_file := square_file piece_square_index
    if pawn_file != piece_file then false
    else
      let pawn_rank := square_rank pawn_square_index
      let piece_rank := square_rank piece_square_index
      if pawn_color then decide (pawn_rank < piece_rank)
      else decide (piece_rank < pawn_rank)
  | _, _ => false

/-- is_movable_under_subjects(board, your_skill, opponent_skill, from_sq,
    to_sq, turn_color) of src/app.py.  The two parse_square calls at the top
    are not guarded by any handler, so a non-string argument propagates
    ValueError to the caller. -/
def is_movable_under_subjects (pos : Position) (your_skill opponent_skill : String)
    (from_sq to_sq : PyVal) (turn_color : Bool) : Except PyErr Bool :=
  match parse_square from_sq, parse_square to_sq with
  | Except.error e, _ => Except.error e
  | Except.ok _, Except.error e => Except.error e
  | Except.ok from_square_index, Except.ok to_square_index =>
    let move : Move := ⟨from_square_index, to_square_index, none⟩
    match piece_at pos from_square_index with
    | none => Except.ok true
    | some moving_piece =>
      if moving_piece.piece_type == PieceType.king && is_check pos your_skill opponent_skill then
        Except.ok true
      else
        let enemy_color := !turn_color
        let enemy_pawns := Position.pieces pos PieceType.pawn enemy_color
        let subjects_skill_applying_pawn_squares := enemy_pawns.filter fun pawn_square_index =>
          check_in_front_of (PyVal.str (square_name pawn_square_index)) from_sq enemy_color
        if subjects_skill_applying_pawn_squares.isEmpty then Except.ok true
        else
          let is_a_capture := Position.is_capture pos move
          if is_a_capture && subjects_skill_applying_pawn_squares.contains to_square_index then
            Except.ok true
          else Except.ok false

/-- Steps 1 to 5 of is_move_legal (basis for legality, same-color block,
    king-capture immunity, Subjects blockade, speculative self-check test with
    the push/pop bracketing of the source, including the extra pop performed
    by the finally block after the in-check early return). -/
def legality_core (game : Game) (b : Board) (move : Move)
    (your_skill opponent_skill : String) : Except PyErr (Bool × Board) :=
  let pos := b.pos
  let is_standard_legal := isStandardLegal pos move
  let moving_piece := piece_at pos move.from_square
  let is_custom_legal :=
    if !is_standard_legal then
      match moving_piece with
      | some p =>
        if your_skill == "theocracy" && p.piece_type == PieceType.bishop then
          is_queen_like_move move.from_square move.to_square &&
            is_path_clear pos move.from_square move.to_square
        else if your_skill == "blitzkrieg" && p.piece_type == PieceType.rook then
          is_path_clear_blitzkrieg pos move.from_square move.to_square pos.turn
        else false
      | none => false
    else false
  if !is_standard_legal && !is_custom_legal then Except.ok (false, b)
  else
    let target_piece := piece_at pos move.to_square
    if target_piece.any fun t => t.color == pos.turn then Except.ok (false, b)
    else if (target_piece.any fun t => t.piece_type == PieceType.king) &&
        is_protected_by_theocracy pos (!pos.turn) then Except.ok (false, b)
    else
      let subjects_step : Except PyErr Bool :=
        if opponent_skill == "subjects" then
          is_movable_under_subjects pos your_skill opponent_skill
            (PyVal.int move.from_square) (PyVal.int move.to_square) pos.turn
        else Except.ok true
      match subjects_step with
      | Except.error e => Except.error e
      | Except.ok movable =>
        if !movable then Except.ok (false, b)
        else
          let b1 := b.push move
          let board_after_move := { b1.pos with turn := !b1.pos.turn }
          if is_check board_after_move your_skill opponent_skill then
            match b1.popMove with
            | Except.error e => Except.error e
            | Except.ok b2 =>
              match b2.popMove with
              | Except.error e => Except.error e
              | Except.ok b3 => Except.ok (false, b3)
          else
            match b1.popMove with
            | Except.error e => Except.error e
            | Except.ok b2 => Except.ok (true, b2)

/-- is_move_legal(game, board, move, your_skill, opponent_skill,
    second_move=...) of src/app.py.  The result carries the final state of the
    board object alongside the returned boolean; exceptions escaping the
    function are Except.error values. -/
def is_move_legal (game : Game) (b : Board) (move : Move)
    (your_skill opponent_skill : String) (second_move : Bool) :
    Except PyErr (Bool × Board) :=
  if second_move then
    if your_skill == "rampage" then
      match game.data.rampage with
      | none => Except.error PyErr.keyError
      | some anchor =>
        if move.from_square != anchor then Except.ok (false, b)
        else Except.ok (is_legal_second_move_no_capture_and_check b.pos move, b)
    else if your_skill == "blitzkrieg" then
      let rook_position := Position.pieces b.pos PieceType.rook b.pos.turn
      if rook_position.length < 2 then Except.ok (false, b)
      else
        match game.data.blitzkrieg with
        | none => Except.ok (false, b)
        | some anchor =>
          if !(rook_position.contains anchor) then Except.ok (false, b)
          else
            match rook_position.erase anchor with
            | [] => Except.ok (false, b)
            | movable_rook_under_blitzkrieg :: _ =>
              if move.from_square != movable_rook_under_blitzkrieg then Except.ok (false, b)
              else legality_core game b move your_skill opponent_skill
    else Except.ok (false, b)
  else legality_core game b move your_skill opponent_skill

/- ===== Concrete fixtures ===== -/

def emptyBoard : List (Option Piece) := List.replicate 64 none

def mkBoard (l : List (Nat × Piece)) : List (Option Piece) :=
  l.foldl (fun b x => b.set x.1 (some x.2)) emptyBoard

def noRights : Castling := ⟨false, false, false, false⟩

def allRights : Castling := ⟨true, true, true, true⟩

def gameEmpty : Game := ⟨⟨none, none⟩, none⟩

/-- White pawn a2, white king e1, black bishop e8, black king h8; white to
    move, empty move stack.  A standard-legal quiet move (a2a3) leaves the
    white king on the file of a Theocracy phantom queen. -/
def P1 : Position :=
  ⟨mkBoard [(8, ⟨PieceType.pawn, true⟩), (4, ⟨PieceType.king, true⟩),
            (60, ⟨PieceType.bishop, false⟩), (63, ⟨PieceType.king, false⟩)],
   true, none, noRights⟩

/-- White king e1, black king a8, black rook e8, black pawn e4; white to
    move.  The rook is aligned with the white king on the e-file and every
    square strictly between is empty or holds a black piece (the pawn e4). -/
def P2 : Position :=
  ⟨mkBoard [(4, ⟨PieceType.king, true⟩), (56, ⟨PieceType.king, false⟩),
            (60, ⟨PieceType.rook, false⟩), (28, ⟨PieceType.pawn, false⟩)],
   true, none, noRights⟩

/-- The standard initial position. -/
def startPos : Position :=
  ⟨mkBoard [(0, ⟨PieceType.rook, true⟩), (1, ⟨PieceType.knight, true⟩),
            (2, ⟨PieceType.bishop, true⟩), (3, ⟨PieceType.queen, true⟩),
            (4, ⟨PieceType.king, true⟩), (5, ⟨PieceType.bishop, true⟩),
            (6, ⟨PieceType.knight, true⟩), (7, ⟨PieceType.rook, true⟩),
            (8, ⟨PieceType.pawn, true⟩), (9, ⟨PieceType.pawn, true⟩),
            (10, ⟨PieceType.pawn, true⟩), (11, ⟨PieceType.pawn, true⟩),
            (12, ⟨PieceType.pawn, true⟩), (13, ⟨PieceType.pawn, true⟩),
            (14, ⟨PieceType.pawn, true⟩), (15, ⟨PieceType.pawn, true⟩),
            (48, ⟨PieceType.pawn, false⟩), (49, ⟨PieceType.pawn, false⟩),
            (50, ⟨PieceType.pawn, false⟩), (51, ⟨PieceType.pawn, false⟩),
            (52, ⟨PieceType.pawn, false⟩), (53, ⟨PieceType.pawn, false⟩),
            (54, ⟨PieceType.pawn, false⟩), (55, ⟨PieceType.pawn, false⟩),
            (56, ⟨PieceType.rook, false⟩), (57, ⟨PieceType.knight, false⟩),
            (58, ⟨PieceType.bishop, false⟩), (59, ⟨PieceType.queen, false⟩),
            (60, ⟨PieceType.king, false⟩), (61, ⟨PieceType.bishop, false⟩),
            (62, ⟨PieceType.knight, false⟩), (63, ⟨PieceType.rook, false⟩)],
   true, none, allRights⟩

/-- Board after a white bishop was captured on e4 by a black knight;
    both white bishop home squares (c1, f1) are empty. -/
def P8 : Position :=
  ⟨mkBoard [(28, ⟨PieceType.knight, false⟩), (7, ⟨PieceType.king, true⟩),
            (63, ⟨PieceType.king, false⟩)],
   true, none, noRights⟩

/- ===== Claim theorems: code bugs ===== -/

/-- Claim C1 states that is_move_legal performs exactly one pop for its
    speculative push on every return path.  The code does not: on the path
    that rejects the move because the mover would be left in check it pops
    once inside the try block and then the finally block pops again.  At this
    concrete input (standard-legal a2a3, opponent Theocracy, phantom-queen
    check after the move, empty move stack) the second pop raises IndexError,
    so the evaluator exits exceptionally instead of returning with the
    Position restored. -/
theorem c1_legality_evaluator_double_pop :
    is_move_legal gameEmpty ⟨P1, []⟩ ⟨8, 16, none⟩ "none" "theocracy" false
      = Except.error PyErr.indexError := rfl

/-- Claim C2 states that with attacker skill Blitzkrieg a rook aligned with
    the defending king whose in-between squares are empty or friendly to the
    rook is a valid checker.  In the code the helper additionally demands the
    rook to be a member of the standard attacker set of the king square,
    which requires an empty path, so a friendly-jump path is never detected:
    at P2 the black rook e8 is file-aligned with the white king e1, the only
    intervening piece is the black pawn e4 (the rook's own color), the
    defender has no Theocracy immunity, yet is_check returns false. -/
theorem c2_blitzkrieg_friendly_jump_not_detected :
    is_check P2 "none" "blitzkrieg" = false ∧
    piece_at P2 60 = some ⟨PieceType.rook, false⟩ ∧
    Position.king P2 true = some 4 ∧
    ((betweenSqs 60 4).all fun sq =>
      match piece_at P2 sq with
      | some p => p.color == false
      | none => true) = true ∧
    is_protected_by_theocracy P2 P2.turn = false :=
  ⟨rfl, rfl, rfl, rfl, rfl⟩

/-- Claim C6 states that is_move_legal always returns a boolean for
    well-formed moves and never lets an exception escape, in particular with
    opponent skill Subjects.  The code passes the raw integer square indices
    of the move to is_movable_under_subjects, whose unguarded
    chess.parse_square calls raise ValueError on integers: already the
    opening move e2e4 from the standard initial position makes the evaluator
    raise instead of returning. -/
theorem c6_subjects_integration_value_error :
    is_move_legal gameEmpty ⟨startPos, []⟩ ⟨12, 28, none⟩ "none" "subjects" false
      = Except.error PyErr.valueError := rfl

/-- Claim C8 states that a revived bishop is placed on the home square
    matching the color of the square it was captured on (white: f1 for a
    light-square capture, c1 for a dark-square capture).  The code's
    get_square_color labels squares with even file+rank sum LIGHT, which is
    the inverse of the chess convention, while the BISHOP_SQUARES table is
    written in the standard convention, so the bishop lands on the home
    square of the opposite color: a white bishop captured on e4 (a
    light square, odd file+rank sum) is revived on c1 (a dark square, even
    sum) while f1 stays empty, and the revival flag is set. -/
theorem c8_revival_square_color_bug :
    handle_revive_skill P8 (some ⟨PieceType.bishop, true⟩) 28 gameEmpty
        = Except.ok (set_piece_at P8 2 (some ⟨PieceType.bishop, true⟩),
            { gameEmpty with revive := some ⟨true, false⟩ }) ∧
    (square_file 28 + square_rank 28) % 2 = 1 ∧
    (square_file 2 + square_rank 2) % 2 = 0 ∧
    (square_file 5 + square_rank 5) % 2 = 1 ∧
    piece_at (set_piece_at P8 2 (some ⟨PieceType.bishop, true⟩)) 5 = none :=
  ⟨rfl, rfl, rfl, rfl, rfl⟩

/- ===== Claim C4: Theocracy immunity is blanket ===== -/

/-- Claim C4: if the side to move has skill Theocracy and owns at least one
    bishop, is_check returns false whatever the attacker skill and whatever
    attack (standard, phantom queen or Blitzkrieg rook) is present: the
    immunity flag negates the whole disjunction of check types. -/
theorem c4_theocracy_immunity_blanket (pos : Position) (opponent_skill : String)
    (h : is_protected_by_theocracy pos pos.turn = true) :
    is_check pos "theocracy" opponent_skill = false := by
  simp [is_check, h]

/-- White king e1, white bishop c1, black rook e8 giving a standard check,
    black king a8; the Theocracy immunity still reports no check. -/
def P4 : Position :=
  ⟨mkBoard [(4, ⟨PieceType.king, true⟩), (2, ⟨PieceType.bishop, true⟩),
            (60, ⟨PieceType.rook, false⟩), (56, ⟨PieceType.king, false⟩)],
   true, none, noRights⟩

theorem c4_theocracy_immunity_witness :
    is_check P4 "theocracy" "none" = false ∧ Position.std_is_check P4 = true :=
  ⟨c4_theocracy_immunity_blanket P4 "none" rfl, rfl⟩

/- ===== Claim C10: the Rampage second-move rule ===== -/

/-- Claim C10: with second_move = true and mover skill Rampage, the evaluator
    tests only that the origin is the stored anchor, that the move is not a
    capture and that it does not give check; no baseline-legality,
    same-color, Subjects or self-check test is applied and the board is left
    untouched, so in particular a move from the anchor onto one of the
    mover's own pieces, or to a square unreachable by the piece's normal
    movement, is accepted. -/
theorem c10_rampage_second_move_rule (game : Game) (b : Board) (m : Move)
    (opponent_skill : String) (anchor : Nat) (h : game.data.rampage = some anchor) :
    is_move_legal game b m "rampage" opponent_skill true
      = Except.ok ((m.from_square == anchor) &&
          is_legal_second_move_no_capture_and_check b.pos m, b) := by
  cases hBeq : m.from_square == anchor <;>
    simp [is_move_legal, h, bne, hBeq]

/-- White knight e5 (the anchor), white pawn d3, white king h1, black king
    a8: the bonus move e5-d3 lands on the mover's own pawn and is accepted. -/
def P10 : Position :=
  ⟨mkBoard [(36, ⟨PieceType.knight, true⟩), (19, ⟨PieceType.pawn, true⟩),
            (7, ⟨PieceType.king, true⟩), (56, ⟨PieceType.king, false⟩)],
   true, none, noRights⟩

def g10 : Game := ⟨⟨some 36, none⟩, none⟩

theorem c10_rampage_second_move_witness :
    is_move_legal g10 ⟨P10, []⟩ ⟨36, 19, none⟩ "rampage" "none" true
      = Except.ok (true, ⟨P10, []⟩) := by
  rw [c10_rampage_second_move_rule g10 ⟨P10, []⟩ ⟨36, 19, none⟩ "none" 36 rfl]
  rfl

/- ===== Claim C9: get_squares_between ===== -/

def chebyshev (a b : Nat) : Nat :=
  max ((square_file a : Int) - square_file b).natAbs
      ((square_rank a : Int) - square_rank b).natAbs

/-- Claim C9 states that get_squares_between returns the empty sequence for
    squares that are not aligned on a rank, file or diagonal.  It does not:
    for a1 (square 0) and c2 (square 10), which are not aligned, the rounded
    interpolation yields the square b1; likewise, for b1 (square 1) and a7
    (square 48) it yields five squares, the third of which (b4, square 25)
    comes from the accumulated float 0.5000000000000001 rounding up to file 1
    even though the exact interpolated file coordinate is 1/2. -/
theorem c9_squares_between_counterexample :
    get_squares_between 0 10 = [1] ∧ is_queen_like_move 0 10 = false ∧
    get_squares_between 1 48 = [9, 17, 25, 32, 40] ∧ is_queen_like_move 1 48 = false :=
  ⟨rfl, rfl, rfl, rfl⟩

/-- Claim C9 amended: for aligned squares get_squares_between returns exactly
    the ordered strictly-between squares, and for adjacent or coincident
    squares (Chebyshev distance at most 1) it returns the empty sequence;
    but for non-aligned squares at Chebyshev distance at least 2 it returns a
    nonempty rounded-interpolation sequence rather than the empty one. -/
theorem c9_squares_between_amended :
    ∀ a b : Fin 64,
      (is_queen_like_move a.1 b.1 = true → get_squares_between a.1 b.1 = betweenSqs a.1 b.1) ∧
      (chebyshev a.1 b.1 ≤ 1 → get_squares_between a.1 b.1 = []) ∧
      (is_queen_like_move a.1 b.1 = false → 2 ≤ chebyshev a.1 b.1 →
        get_squares_between a.1 b.1 ≠ []) := by
  decide

theorem c9_squares_between_witness :
    get_squares_between 0 18 = betweenSqs 0 18 ∧ get_squares_between 0 10 ≠ [] :=
  ⟨(c9_squares_between_amended 0 18).1 rfl,
   (c9_squares_between_amended 0 10).2.2 rfl (by decide)⟩

/- ===== Claim C3: the Subjects blockade ===== -/

theorem parse_square_name : ∀ f : Fin 64,
    parse_square (PyVal.str (square_name f.1)) = Except.ok f.1 := by
  decide

/-- The pawns whose zone of projection contains the given square: the set the
    source computes against the move's origin square. -/
def subjects_applying (pos : Position) (from_idx : Nat) (enemy_color : Bool) : List Nat :=
  (Position.pieces pos PieceType.pawn enemy_color).filter fun pawn_square_index =>
    check_in_front_of (PyVal.str (square_name pawn_square_index))
      (PyVal.str (square_name from_idx)) enemy_color

/-- White rook e4 standing in front of the black pawn e7, black knight e5,
    white king h1, black king a8; white to move. -/
def P3 : Position :=
  ⟨mkBoard [(28, ⟨PieceType.rook, true⟩), (52, ⟨PieceType.pawn, false⟩),
            (36, ⟨PieceType.knight, false⟩), (7, ⟨PieceType.king, true⟩),
            (56, ⟨PieceType.king, false⟩)],
   true, none, noRights⟩

/-- Claim C3 keys the blockade on the move's destination square; the code
    keys it on the origin square, and the only escape is capturing one of
    the projecting pawns themselves.  Both directions of the claim fail on
    P3: the rook move e4-d4 has a destination projected by no black pawn yet
    is rejected, and the capture e4xe5 lands exactly on a square projected by
    the pawn e7 yet is also rejected. -/
theorem c3_subjects_blockade_counterexample :
    is_movable_under_subjects P3 "none" "subjects"
        (PyVal.str (square_name 28)) (PyVal.str (square_name 27)) true = Except.ok false ∧
    ((Position.pieces P3 PieceType.pawn false).all fun p =>
      check_in_front_of (PyVal.str (square_name p)) (PyVal.str (square_name 27)) false
        == false) = true ∧
    piece_at P3 28 = some ⟨PieceType.rook, true⟩ ∧
    is_movable_under_subjects P3 "none" "subjects"
        (PyVal.str (square_name 28)) (PyVal.str (square_name 36)) true = Except.ok false ∧
    Position.is_capture P3 ⟨28, 36, none⟩ = true ∧
    check_in_front_of (PyVal.str (square_name 52)) (PyVal.str (square_name 36)) false = true :=
  ⟨rfl, rfl, rfl, rfl, rfl, rfl⟩

/-- Claim C3 amended: under attacker skill Subjects, for a present moving
    piece that is not a king currently in check, the blockade test passes iff
    no attacker pawn projects onto the move's ORIGIN square, or the move is a
    capture whose destination is the square of one of the pawns projecting
    onto the origin. -/
theorem c3_subjects_blockade_amended (pos : Position) (your_skill opponent_skill : String)
    (turn_color : Bool) (f t : Nat) (hf : f < 64) (ht : t < 64) (mp : Piece)
    (hp : piece_at pos f = some mp)
    (hk : mp.piece_type = PieceType.king → is_check pos your_skill opponent_skill = false) :
    is_movable_under_subjects pos your_skill opponent_skill
        (PyVal.str (square_name f)) (PyVal.str (square_name t)) turn_color
      = Except.ok
          ((subjects_applying pos f (!turn_color)).isEmpty ||
           (Position.is_capture pos ⟨f, t, none⟩ &&
             (subjects_applying pos f (!turn_color)).contains t)) := by
  have h1 : parse_square (PyVal.str (square_name f)) = Except.ok f := parse_square_name ⟨f, hf⟩
  have h2 : parse_square (PyVal.str (square_name t)) = Except.ok t := parse_square_name ⟨t, ht⟩
  have hcond : (mp.piece_type == PieceType.king &&
      is_check pos your_skill opponent_skill) = false := by
    by_cases hkp : mp.piece_type = PieceType.king
    · simp [hkp, hk hkp]
    · simp [hkp]
  simp only [is_movable_under_subjects, h1, h2, hp, subjects_applying, hcond,
    Bool.false_eq_true, if_false]
  cases hA : ((Position.pieces pos PieceType.pawn (!turn_color)).filter fun pawn_square_index =>
      check_in_front_of (PyVal.str (square_name pawn_square_index))
        (PyVal.str (square_name f)) (!turn_color)).isEmpty <;>
  cases hC : (Position.is_capture pos ⟨f, t, none⟩ &&
      ((Position.pieces pos PieceType.pawn (!turn_color)).filter fun pawn_square_index =>
        check_in_front_of (PyVal.str (square_name pawn_square_index))
          (PyVal.str (square_name f)) (!turn_color)).contains t) <;>
  simp [hA, hC]

theorem c3_subjects_blockade_witness :
    is_movable_under_subjects P3 "none" "subjects"
        (PyVal.str (square_name 28)) (PyVal.str (square_name 20)) true = Except.ok false := by
  rw [c3_subjects_blockade_amended P3 "none" "subjects" true 28 20 (by decide) (by decide)
    ⟨PieceType.rook, true⟩ rfl (by intro h; cases h)]
  rfl

/- ===== Claim C5: king-capture immunity ===== -/

/-- White rook a1, white king h1, black king a8, black bishop h8; white to
    move.  Rxa8 is standard-legal for the baseline engine and captures the
    black king. -/
def P5 : Position :=
  ⟨mkBoard [(0, ⟨PieceType.rook, true⟩), (7, ⟨PieceType.king, true⟩),
            (56, ⟨PieceType.king, false⟩), (63, ⟨PieceType.bishop, false⟩)],
   true, none, noRights⟩

/-- Claim C5 states the king-capture rejection requires the king's owner to
    have the Theocracy skill.  The code only tests bishop ownership: here
    neither player has Theocracy (both skills are none), the capture Rxa8 is
    standard-legal, passes the same-color test, Subjects is off and the mover
    is not left in check, yet the evaluator rejects it because the black
    king's owner happens to own a bishop. -/
theorem c5_king_capture_counterexample :
    is_move_legal gameEmpty ⟨P5, []⟩ ⟨0, 56, none⟩ "none" "none" false
        = Except.ok (false, ⟨P5, []⟩) ∧
    piece_at P5 56 = some ⟨PieceType.king, false⟩ ∧
    is_protected_by_theocracy P5 false = true ∧
    isStandardLegal P5 ⟨0, 56, none⟩ = true ∧
    ((piece_at P5 56).any fun tp => tp.color == P5.turn) = false ∧
    is_check { applyMove P5 ⟨0, 56, none⟩ with turn := !(applyMove P5 ⟨0, 56, none⟩).turn }
      "none" "none" = false :=
  ⟨rfl, rfl, rfl, rfl, rfl, rfl⟩

/-- Claim C5 amended: whenever the destination square holds a king whose
    owner currently owns at least one bishop, the primary branch of
    is_move_legal rejects the move, regardless of both players' skills (the
    owner's skill is never consulted). -/
theorem c5_king_capture_amended (game : Game) (b : Board) (m : Move)
    (your_skill opponent_skill : String) (pc : Piece)
    (hp : piece_at b.pos m.to_square = some pc)
    (hk : pc.piece_type = PieceType.king)
    (hb : is_protected_by_theocracy b.pos pc.color = true) :
    is_move_legal game b m your_skill opponent_skill false = Except.ok (false, b) := by
  have hcases : pc.color = b.pos.turn ∨ pc.color = !b.pos.turn := by
    cases pc.color <;> cases b.pos.turn <;> simp
  rcases hcases with hcase | hcase
  · simp [is_move_legal, legality_core, hp, hcase, hk, hb]
  · rw [hcase] at hb
    simp [is_move_legal, legality_core, hp, hcase, hk, hb]

theorem c5_king_capture_witness :
    is_move_legal gameEmpty ⟨P5, []⟩ ⟨0, 56, none⟩ "blitzkrieg" "theocracy" false
      = Except.ok (false, ⟨P5, []⟩) :=
  c5_king_capture_amended gameEmpty ⟨P5, []⟩ ⟨0, 56, none⟩ "blitzkrieg" "theocracy"
    ⟨PieceType.king, false⟩ rfl rfl rfl

/- ===== Claim C7: Blitzkrieg bonus rook selection ===== -/

/-- White rooks a1, h1 and e5 (the anchor), white king e1, black king b8;
    white to move. -/
def P7 : Position :=
  ⟨mkBoard [(0, ⟨PieceType.rook, true⟩), (7, ⟨PieceType.rook, true⟩),
            (36, ⟨PieceType.rook, true⟩), (4, ⟨PieceType.king, true⟩),
            (57, ⟨PieceType.king, false⟩)],
   true, none, noRights⟩

def g7 : Game := ⟨⟨none, some 36⟩, none⟩

/-- Claim C7 states that whenever at least two non-anchor rooks exist, a
    bonus move from either of them satisfies the rook-selection rule.  The
    code pops a single square from the rook set after removing the anchor
    (python-chess SquareSet.pop returns the lowest square) and compares the
    origin against that one square only: at P7 the non-anchor rooks are a1
    and h1, the move h1-h4 is standard-legal, quiet and leaves no self-check,
    yet the evaluator rejects it because h1 is not the lowest non-anchor
    rook. -/
theorem c7_blitzkrieg_bonus_counterexample :
    is_move_legal g7 ⟨P7, []⟩ ⟨7, 31, none⟩ "blitzkrieg" "none" true
        = Except.ok (false, ⟨P7, []⟩) ∧
    Position.pieces P7 PieceType.rook true = [0, 7, 36] ∧
    g7.data.blitzkrieg = some 36 ∧
    isStandardLegal P7 ⟨7, 31, none⟩ = true ∧
    piece_at P7 31 = none ∧
    is_check { applyMove P7 ⟨7, 31, none⟩ with turn := !(applyMove P7 ⟨7, 31, none⟩).turn }
      "blitzkrieg" "none" = false :=
  ⟨rfl, rfl, rfl, rfl, rfl, rfl⟩

/-- Claim C7 amended: a Blitzkrieg bonus move is rejected when the mover has
    fewer than two rooks (part 1) and when the stored anchor is not in the
    mover's rook set (part 2); otherwise exactly one origin satisfies the
    rook-selection rule, namely the lowest-indexed rook left after removing
    the stored anchor: a bonus move from any other square is rejected
    (part 3), while a bonus move from that lowest remaining rook passes the
    selection rule and is evaluated by exactly the remaining legality
    conditions of the primary branch (part 4). -/
theorem c7_blitzkrieg_bonus_amended :
    (∀ (game : Game) (b : Board) (m : Move) (opponent_skill : String),
      (Position.pieces b.pos PieceType.rook b.pos.turn).length < 2 →
      is_move_legal game b m "blitzkrieg" opponent_skill true = Except.ok (false, b)) ∧
    (∀ (game : Game) (b : Board) (m : Move) (opponent_skill : String) (anchor : Nat),
      game.data.blitzkrieg = some anchor →
      anchor ∉ Position.pieces b.pos PieceType.rook b.pos.turn →
      is_move_legal game b m "blitzkrieg" opponent_skill true = Except.ok (false, b)) ∧
    (∀ (game : Game) (b : Board) (m : Move) (opponent_skill : String)
        (anchor r : Nat) (rest : List Nat),
      game.data.blitzkrieg = some anchor →
      (Position.pieces b.pos PieceType.rook b.pos.turn).erase anchor = r :: rest →
      m.from_square ≠ r →
      is_move_legal game b m "blitzkrieg" opponent_skill true = Except.ok (false, b)) ∧
    (∀ (game : Game) (b : Board) (m : Move) (opponent_skill : String)
        (anchor r : Nat) (rest : List Nat),
      game.data.blitzkrieg = some anchor →
      2 ≤ (Position.pieces b.pos PieceType.rook b.pos.turn).length →
      anchor ∈ Position.pieces b.pos PieceType.rook b.pos.turn →
      (Position.pieces b.pos PieceType.rook b.pos.turn).erase anchor = r :: rest →
      m.from_square = r →
      is_move_legal game b m "blitzkrieg" opponent_skill true
        = legality_core game b m "blitzkrieg" opponent_skill) := by
  refine ⟨?_, ?_, ?_, ?_⟩
  · intro game b m opponent_skill hlen
    simp [is_move_legal, hlen]
  · intro game b m opponent_skill anchor hanchor hmem
    by_cases hlen : (Position.pieces b.pos PieceType.rook b.pos.turn).length < 2
    · simp [is_move_legal, hlen]
    · simp [is_move_legal, hlen, hanchor, hmem]
  · intro game b m opponent_skill anchor r rest hanchor hErase hm
    by_cases hlen : (Position.pieces b.pos PieceType.rook b.pos.turn).length < 2
    · simp [is_move_legal, hlen]
    · by_cases hc : (Position.pieces b.pos PieceType.rook b.pos.turn).contains anchor
      · simp [is_move_legal, hlen, hanchor, hc, hErase, hm]
      · have hc2 : ¬ anchor ∈ Position.pieces b.pos PieceType.rook b.pos.turn := by
          simpa using hc
        simp [is_move_legal, hlen, hanchor, hc2]
  · intro game b m opponent_skill anchor r rest hanchor hlen hmem hErase hfrom
    have hlen2 : ¬ (Position.pieces b.pos PieceType.rook b.pos.turn).length < 2 := by
      omega
    simp [is_move_legal, hlen2, hanchor, hmem, hErase, hfrom]

/-- White rook a1, white king e1, black king a8: a single rook. -/
def Pw1 : Position :=
  ⟨mkBoard [(0, ⟨PieceType.rook, true⟩), (4, ⟨PieceType.king, true⟩),
            (56, ⟨PieceType.king, false⟩)],
   true, none, noRights⟩

/-- A game whose stored Blitzkrieg anchor (d3, square 19) is not one of the
    mover's rook squares. -/
def gAbsent : Game := ⟨⟨none, some 19⟩, none⟩

theorem c7_blitzkrieg_bonus_witness :
    is_move_legal gameEmpty ⟨Pw1, []⟩ ⟨0, 8, none⟩ "blitzkrieg" "none" true
        = Except.ok (false, ⟨Pw1, []⟩) ∧
    is_move_legal gAbsent ⟨P7, []⟩ ⟨0, 24, none⟩ "blitzkrieg" "none" true
        = Except.ok (false, ⟨P7, []⟩) ∧
    is_move_legal g7 ⟨P7, []⟩ ⟨7, 31, none⟩ "blitzkrieg" "rampage" true
        = Except.ok (false, ⟨P7, []⟩) ∧
    is_move_legal g7 ⟨P7, []⟩ ⟨0, 24, none⟩ "blitzkrieg" "none" true
        = Except.ok (true, ⟨P7, []⟩) :=
  ⟨c7_blitzkrieg_bonus_amended.1 gameEmpty ⟨Pw1, []⟩ ⟨0, 8, none⟩ "none" (by decide),
   c7_blitzkrieg_bonus_amended.2.1 gAbsent ⟨P7, []⟩ ⟨0, 24, none⟩ "none" 19
     rfl (by decide),
   c7_blitzkrieg_bonus_amended.2.2.1 g7 ⟨P7, []⟩ ⟨7, 31, none⟩ "rampage" 36 0 [7]
     rfl rfl (by decide),
   by
     rw [c7_blitzkrieg_bonus_amended.2.2.2 g7 ⟨P7, []⟩ ⟨0, 24, none⟩ "none" 36 0 [7]
       rfl (by decide) (by decide) rfl rfl]
     rfl⟩
